import Mathlib

/-!
Shallow embedding of the `create-zpool` program from the
talos-zpool-extension repository (Go source `create-zpool/main.go` and
`create-zpool/zfs_provider.go`), together with theorems settling the
specification claims about configuration parsing, validation, disk
probing, pool creation and the batch contract of the run.

The process environment is modelled as a partial map from variable names
to values (`Env`); the external `zpool` gateway (the Go `zfsProvider`
interface) is modelled as a structure of response functions, and the
orchestration functions additionally return the ordered trace of gateway
calls they perform, so that claims of the form "no creation command is
invoked" are expressible.
-/

set_option maxRecDepth 4000

/-- The process environment: `none` means the variable is unset,
`some v` means it is set to `v` (possibly the empty string),
mirroring `os.LookupEnv`. -/
def Env : Type := String → Option String

/-- Models Go `os.Getenv`: the value when set, `""` when unset. -/
def osGetenv (env : Env) (key : String) : String :=
  (env key).getD ""

/-- Models the repository's `getEnv(key, fallback)`: the value when the
variable is set (via `os.LookupEnv`), otherwise the fallback. -/
def getEnv (env : Env) (key fallback : String) : String :=
  (env key).getD fallback

/-- Go `unicode.IsSpace` on the code points relevant to `strings.Fields`
(the Unicode White_Space property). -/
def goIsSpace (c : Char) : Bool :=
  let n := c.toNat
  (9 ≤ n && n ≤ 13) || n = 32 || n = 133 || n = 160 || n = 5760 ||
  (8192 ≤ n && n ≤ 8202) || n = 8232 || n = 8233 || n = 8239 || n = 8287 || n = 12288

/-- Accumulator recursion behind `fields`: splits a character list around
white space, keeping the current in-progress word reversed in `acc`. -/
def fieldsAux : List Char → List Char → List (List Char)
  | [], [] => []
  | [], acc => [acc.reverse]
  | c :: cs, acc =>
    if goIsSpace c then
      match acc with
      | [] => fieldsAux cs []
      | _ :: _ => acc.reverse :: fieldsAux cs []
    else fieldsAux cs (c :: acc)

/-- Models Go `strings.Fields`: the list of maximal runs of
non-white-space characters, in order. -/
def fields (s : String) : List String :=
  (fieldsAux s.data []).map (fun l => ⟨l⟩)

/-- Constant `defaultAshift = "12"` from `main.go`. -/
def defaultAshift : String := "12"

/-- Constant `maxPools = 42` from `main.go`. -/
def maxPools : Nat := 42

/-- The `poolConfig` struct from `main.go`.  The Go field `Type` is
rendered `Typ` (`Type` is not a usable field name in Lean). -/
structure poolConfig where
  Name : String
  Typ : String
  Disks : List String
  Ashift : String
deriving DecidableEq, Repr

/-- Environment key `ZPOOL_NAME_<i>`. -/
def nameKey (i : Nat) : String := "ZPOOL_NAME_" ++ toString i

/-- Environment key `ZPOOL_DISKS_<i>`. -/
def disksKey (i : Nat) : String := "ZPOOL_DISKS_" ++ toString i

/-- Environment key `ZPOOL_TYPE_<i>`. -/
def typeKey (i : Nat) : String := "ZPOOL_TYPE_" ++ toString i

/-- Environment key `ZPOOL_ASHIFT_<i>`. -/
def ashiftKey (i : Nat) : String := "ZPOOL_ASHIFT_" ++ toString i

/-- The global fallback read at the top of `parsePoolConfigs`:
`getEnv("ZPOOL_ASHIFT", defaultAshift)`. -/
def globalAshift (env : Env) : String :=
  getEnv env "ZPOOL_ASHIFT" defaultAshift

/-- The pool configuration assembled for index `i` inside the loop body of
`parsePoolConfigs` (name, type and disks via `os.Getenv`, ashift via
`getEnv` with the global fallback). -/
def specAt (env : Env) (g : String) (i : Nat) : poolConfig :=
  { Name := osGetenv env (nameKey i)
    Typ := osGetenv env (typeKey i)
    Disks := fields (osGetenv env (disksKey i))
    Ashift := getEnv env (ashiftKey i) g }

/-- The loop of `parsePoolConfigs`: `fuel` iterations remain, `i` is the
current index; stops at the first index whose `ZPOOL_NAME_<i>` is empty. -/
def parseAux (env : Env) (g : String) : Nat → Nat → List poolConfig
  | 0, _ => []
  | fuel + 1, i =>
    if osGetenv env (nameKey i) = "" then []
    else specAt env g i :: parseAux env g fuel (i + 1)

/-- Models `parsePoolConfigs` from `main.go`: reads indexed environment
variables into a list of pool configurations, at most `maxPools` of them. -/
def parsePoolConfigs (env : Env) : List poolConfig :=
  parseAux env (globalAshift env) maxPools 0

/-- The condition of the post-loop warning in `parsePoolConfigs`:
`os.Getenv(fmt.Sprintf("ZPOOL_NAME_%d", maxPools)) != ""`. -/
def maxPoolWarning (env : Env) : Bool :=
  osGetenv env (nameKey maxPools) != ""

/-- ASCII letter, the class `[a-zA-Z]` of the name pattern. -/
def isAsciiLetter (c : Char) : Bool :=
  (97 ≤ c.toNat && c.toNat ≤ 122) || (65 ≤ c.toNat && c.toNat ≤ 90)

/-- The class `[a-zA-Z0-9_.: -]` of the name pattern. -/
def isNameChar (c : Char) : Bool :=
  isAsciiLetter c || (48 ≤ c.toNat && c.toNat ≤ 57) ||
  c = '_' || c = '.' || c = ':' || c = ' ' || c = '-'

/-- The anchored match `regexp.MatchString("^[a-zA-Z][a-zA-Z0-9_.: -]*$", name)`
used in `isValidZpoolName`. -/
def matchesNamePattern (name : String) : Bool :=
  match name.data with
  | [] => false
  | c :: cs => isAsciiLetter c && cs.all isNameChar

/-- The reserved names map of `isValidZpoolName`. -/
def reservedNames : List String := ["mirror", "raidz", "draid", "spare", "log"]

/-- The reserved leading-word list of `isValidZpoolName` (names starting
with one of these are rejected). -/
def reservedStarts : List String := ["mirror", "raidz", "draid", "spare"]

/-- `startsWithList pre l`: `l` begins with `pre`. -/
def startsWithList : List Char → List Char → Bool
  | [], _ => true
  | _ :: _, [] => false
  | c :: cs, d :: ds => c = d && startsWithList cs ds

/-- Models Go `strings.HasPrefix(s, pre)`. -/
def startsWithGo (s pre : String) : Bool :=
  startsWithList pre.data s.data

/-- Models `isValidZpoolName` from `main.go`. -/
def isValidZpoolName (name : String) : Bool :=
  if name = "" then false
  else if !matchesNamePattern name then false
  else if reservedNames.contains name then false
  else if reservedStarts.any (fun p => startsWithGo name p) then false
  else true

/-- Models `isValidZpoolType` from `main.go`: membership in the allowed
types map (which includes the empty string). -/
def isValidZpoolType (poolType : String) : Bool :=
  ["", "mirror", "raidz", "raidz1", "raidz2", "raidz3",
   "draid", "draid1", "draid2", "draid3"].contains poolType

/-- Digit-accumulation loop behind `atoiGo`: consumes decimal digits into
the accumulator, failing at the first non-digit. -/
def digitsVal : List Char → Nat → Option Nat
  | [], acc => some acc
  | c :: cs, acc =>
    if c.isDigit then digitsVal cs (acc * 10 + (c.toNat - 48)) else none

/-- Value of a non-empty all-digit character list, `none` otherwise. -/
def parseDigits (l : List Char) : Option Nat :=
  match l with
  | [] => none
  | _ :: _ => digitsVal l 0

/-- Models Go `strconv.Atoi` on a 64-bit platform (the build targets are
linux/amd64 and linux/arm64, so `int` is 64 bits): an optional sign
followed by at least one decimal digit, with the resulting value required
to lie in the signed 64-bit range, otherwise an error (`ErrRange`). -/
def atoiGo (s : String) : Option Int :=
  match s.data with
  | [] => none
  | c :: cs =>
    if c = '-' then
      match parseDigits cs with
      | none => none
      | some n => if (n : Int) ≤ 2 ^ 63 then some (-(n : Int)) else none
    else
      match parseDigits (if c = '+' then cs else c :: cs) with
      | none => none
      | some n => if (n : Int) ≤ 2 ^ 63 - 1 then some (n : Int) else none

/-- Models `isValidAshift` from `main.go`: `strconv.Atoi` succeeds. -/
def isValidAshift (ashift : String) : Bool :=
  (atoiGo ashift).isSome

/-- Value of a digit list, most significant first (helper for stating the
alignment claims). -/
def digitsToNat (l : List Char) : Nat :=
  l.foldl (fun a c => a * 10 + (c.toNat - 48)) 0

/-- Written from the spec's words, for comparison with `isValidAshift`:
"any string parseable as a base-10 integer (including negative and
zero)" — an optional sign followed by at least one decimal digit, with
no bound on magnitude. -/
def specBase10Int (s : String) : Bool :=
  match s.data with
  | [] => false
  | c :: cs =>
    if c = '+' || c = '-' then !cs.isEmpty && cs.all Char.isDigit
    else (c :: cs).all Char.isDigit

/-- The integer denoted by an optional-sign digit string (junk value on
other strings); used to state the amended alignment-validation claim. -/
def specIntValue (s : String) : Int :=
  match s.data with
  | [] => 0
  | c :: cs =>
    if c = '-' then -((digitsToNat cs : Nat) : Int)
    else if c = '+' then ((digitsToNat cs : Nat) : Int)
    else ((digitsToNat (c :: cs) : Nat) : Int)

/-- One invocation of the `zfsProvider` gateway, for call traces. -/
inductive gatewayCall where
  | poolExists (name zpoolPath : String)
  | isBlockDevice (path : String)
  | createPool (zpoolPath : String) (args : List String)
  | getPoolStatus (name zpoolPath : String)
deriving DecidableEq, Repr

/-- The `zfsProvider` interface from `zfs_provider.go`, modelled as the
responses the external world gives to each operation.  `LookPath` yields
the resolved path or an error message; `CreatePool` and `GetPoolStatus`
yield the combined output together with `some` error message on a
non-zero exit; `IsBlockDevice` yields the boolean or a stat error. -/
structure zfsProvider where
  LookPath : String → Except String String
  PoolExists : String → String → Bool
  CreatePool : String → List String → String × Option String
  GetPoolStatus : String → String → String × Option String
  IsBlockDevice : String → Except String Bool

/-- The per-disk predicate of the probing loop in `createPool`: a path is
kept exactly when `IsBlockDevice` returns `(true, nil)`; an error or
`false` drops it. -/
def usableDisk (p : zfsProvider) (d : String) : Bool :=
  match p.IsBlockDevice d with
  | Except.ok b => b
  | Except.error _ => false

/-- The argument list assembled in `createPool` before invoking
`CreatePool`. -/
def buildArgs (name typ ashift : String) (disks : List String) : List String :=
  ["create", "-m", "/var/mnt/" ++ name, "-o", "ashift=" ++ ashift, name]
    ++ (if typ ≠ "" then [typ] else []) ++ disks

/-- Models `createPool` from `main.go`.  The first component is the Go
return value (`none` for a nil error, `some msg` for an error); the
second is the ordered trace of gateway calls performed. -/
def createPool (p : zfsProvider) (zpoolPath : String) (config : poolConfig) :
    Option String × List gatewayCall :=
  if !isValidZpoolName config.Name then
    (some ("invalid name: " ++ config.Name), [])
  else if !isValidZpoolType config.Typ then
    (some ("invalid type: " ++ config.Typ), [])
  else if !isValidAshift config.Ashift then
    (some ("invalid ashift value: " ++ config.Ashift), [])
  else if config.Disks.isEmpty then
    (none, [])
  else if p.PoolExists config.Name zpoolPath then
    (none, [gatewayCall.poolExists config.Name zpoolPath])
  else
    let probeCalls := config.Disks.map gatewayCall.isBlockDevice
    let disksToUse := config.Disks.filter (usableDisk p)
    if disksToUse.isEmpty then
      (some "no usable block devices found from the provided list",
       gatewayCall.poolExists config.Name zpoolPath :: probeCalls)
    else
      let args := buildArgs config.Name config.Typ config.Ashift disksToUse
      match p.CreatePool zpoolPath args with
      | (output, some e) =>
        (some ("zpool create command failed: " ++ e ++ ". Output: " ++ output),
         gatewayCall.poolExists config.Name zpoolPath :: probeCalls
           ++ [gatewayCall.createPool zpoolPath args])
      | (_, none) =>
        (none,
         gatewayCall.poolExists config.Name zpoolPath :: probeCalls
           ++ [gatewayCall.createPool zpoolPath args,
               gatewayCall.getPoolStatus config.Name zpoolPath])

/-- The batch loop of `main`: every parsed configuration is attempted, in
order, pairing each with its `createPool` result. -/
def runBatch (p : zfsProvider) (zpoolPath : String) (configs : List poolConfig) :
    List (poolConfig × (Option String × List gatewayCall)) :=
  configs.map (fun c => (c, createPool p zpoolPath c))

/-- Models `main` from `main.go`: the process exit code paired with the
trace of gateway calls made after the `zpool` lookup. -/
def mainRun (p : zfsProvider) (env : Env) : Nat × List gatewayCall :=
  match p.LookPath "zpool" with
  | Except.error _ => (1, [])
  | Except.ok zpoolPath =>
    let configs := parsePoolConfigs env
    if configs.isEmpty then (0, [])
    else
      let results := runBatch p zpoolPath configs
      ((if results.any (fun r => r.2.1.isSome) then 1 else 0),
       (results.map (fun r => r.2.2)).flatten)

/-- Fixture: the empty environment (no variables set). -/
def envEmpty : Env := fun _ => none

/-- Fixture: one pool configured at index 0, matching the spec's parsing
example. -/
def envOne : Env := fun k =>
  if k = "ZPOOL_NAME_0" then some "tank0"
  else if k = "ZPOOL_DISKS_0" then some "/dev/sda /dev/sdb"
  else if k = "ZPOOL_TYPE_0" then some "mirror"
  else if k = "ZPOOL_ASHIFT_0" then some "13"
  else none

/-- Fixture: pool 0 with `ZPOOL_ASHIFT_0` set to the empty string. -/
def envAshiftEmpty : Env := fun k =>
  if k = "ZPOOL_NAME_0" then some "tank"
  else if k = "ZPOOL_ASHIFT_0" then some ""
  else none

/-- Fixture: only `ZPOOL_NAME_42` is set, so parsing stops immediately at
the gap at index 0 while the over-limit variable is present. -/
def envGap42 : Env := fun k =>
  if k = "ZPOOL_NAME_42" then some "extra" else none

/-- Fixture: `ZPOOL_NAME_0` … `ZPOOL_NAME_41` all set, `ZPOOL_NAME_42`
unset. -/
def envFull42 : Env := fun k =>
  if (List.range 42).any (fun i => k == nameKey i) then some "p" else none

/-- Fixture provider whose `zpool` lookup fails. -/
def provNoZpool : zfsProvider :=
  { LookPath := fun _ => Except.error "executable file not found in PATH"
    PoolExists := fun _ _ => false
    CreatePool := fun _ _ => ("", none)
    GetPoolStatus := fun _ _ => ("", none)
    IsBlockDevice := fun _ => Except.ok true }

/-- Fixture provider where everything succeeds. -/
def provOk : zfsProvider :=
  { LookPath := fun _ => Except.ok "/usr/local/sbin/zpool"
    PoolExists := fun _ _ => false
    CreatePool := fun _ _ => ("", none)
    GetPoolStatus := fun _ _ => ("", none)
    IsBlockDevice := fun _ => Except.ok true }

/-- Fixture provider identical to `provOk` except that the status query
fails. -/
def provStatusFail : zfsProvider :=
  { provOk with GetPoolStatus := fun _ _ => ("cannot open pool", some "exit status 1") }

/-- Fixture provider where every pool already exists. -/
def provSkip : zfsProvider :=
  { provOk with PoolExists := fun _ _ => true }

/-- Fixture provider with one disk that cannot be statted, one that is
not a block device, all others block devices, and a failing creation
command. -/
def provProbe : zfsProvider :=
  { provOk with
    CreatePool := fun _ _ => ("invalid vdev specification", some "exit status 1")
    IsBlockDevice := fun d =>
      if d = "/dev/bad1" then Except.error "no such file or directory"
      else if d = "/dev/bad2" then Except.ok false
      else Except.ok true }

/-- Fixture configuration with an empty disk list. -/
def cfgNoDisks : poolConfig :=
  { Name := "tank", Typ := "", Disks := [], Ashift := "12" }

/-- Fixture configuration with a single disk. -/
def cfgOneDisk : poolConfig :=
  { Name := "tank", Typ := "", Disks := ["/dev/sda"], Ashift := "12" }

/-- Fixture configuration mixing an unusable and a usable disk. -/
def cfgMixedDisks : poolConfig :=
  { Name := "tank", Typ := "mirror", Disks := ["/dev/bad1", "/dev/sda"], Ashift := "12" }

/-- Fixture configuration whose disks are all unusable. -/
def cfgBadDisks : poolConfig :=
  { Name := "tank", Typ := "", Disks := ["/dev/bad1", "/dev/bad2"], Ashift := "12" }

/-- The parser loop yields at most `fuel` configurations. -/
theorem parseAux_length_le (env : Env) (g : String) :
    ∀ fuel i, (parseAux env g fuel i).length ≤ fuel := by
  intro fuel
  induction fuel with
  | zero => intro i; simp [parseAux]
  | succ n ih =>
    intro i
    rw [parseAux]
    split
    · simp
    · simp only [List.length_cons]
      have := ih (i + 1)
      omega

/-- Element `j` of the parser loop started at index `i` is the
configuration assembled for index `i + j`. -/
theorem parseAux_get? (env : Env) (g : String) :
    ∀ fuel i j, j < (parseAux env g fuel i).length →
      (parseAux env g fuel i)[j]? = some (specAt env g (i + j)) := by
  intro fuel
  induction fuel with
  | zero => intro i j h; simp [parseAux] at h
  | succ n ih =>
    intro i j h
    by_cases hname : osGetenv env (nameKey i) = ""
    · rw [parseAux, if_pos hname] at h
      simp at h
    · rw [parseAux, if_neg hname] at h ⊢
      cases j with
      | zero => simp
      | succ k =>
        simp only [List.getElem?_cons_succ]
        have hk : k < (parseAux env g n (i + 1)).length := by
          simp only [List.length_cons] at h; omega
        rw [show i + (k + 1) = i + 1 + k from by omega]
        exact ih (i + 1) k hk

/-- Every index covered by the parser loop has a non-empty name
variable. -/
theorem parseAux_name_ne (env : Env) (g : String) :
    ∀ fuel i j, j < (parseAux env g fuel i).length →
      osGetenv env (nameKey (i + j)) ≠ "" := by
  intro fuel
  induction fuel with
  | zero => intro i j h; simp [parseAux] at h
  | succ n ih =>
    intro i j h
    by_cases hname : osGetenv env (nameKey i) = ""
    · rw [parseAux, if_pos hname] at h
      simp at h
    · rw [parseAux, if_neg hname] at h
      cases j with
      | zero => simpa using hname
      | succ k =>
        have hk : k < (parseAux env g n (i + 1)).length := by
          simp only [List.length_cons] at h; omega
        rw [show i + (k + 1) = i + 1 + k from by omega]
        exact ih (i + 1) k hk

/-- If the parser loop stopped before exhausting its fuel, it stopped at
an index whose name variable is empty. -/
theorem parseAux_stop (env : Env) (g : String) :
    ∀ fuel i, (parseAux env g fuel i).length < fuel →
      osGetenv env (nameKey (i + (parseAux env g fuel i).length)) = "" := by
  intro fuel
  induction fuel with
  | zero => intro i h; omega
  | succ n ih =>
    intro i h
    by_cases hname : osGetenv env (nameKey i) = ""
    · rw [parseAux, if_pos hname]
      simpa using hname
    · rw [parseAux, if_neg hname] at h ⊢
      simp only [List.length_cons] at h ⊢
      have hlt : (parseAux env g n (i + 1)).length < n := by omega
      have := ih (i + 1) hlt
      rw [show i + ((parseAux env g n (i + 1)).length + 1) =
            i + 1 + (parseAux env g n (i + 1)).length from by omega]
      exact this

/-- Claim C5: `parsePoolConfigs` returns, in ascending index order
starting at 0, exactly one specification per index up to (but not
including) the first index whose `ZPOOL_NAME_<i>` variable is absent or
empty, and never more than 42 specifications; each returned
specification has disks equal to the whitespace-split of
`ZPOOL_DISKS_<i>`, type equal to `ZPOOL_TYPE_<i>` defaulting to the
empty string, and ashift equal to `ZPOOL_ASHIFT_<i>` defaulting to the
global `ZPOOL_ASHIFT` value, which itself defaults to `"12"`. -/
theorem parsePoolConfigs_characterization (env : Env) :
    (parsePoolConfigs env).length ≤ 42 ∧
    (∀ j (h : j < (parsePoolConfigs env).length),
      osGetenv env (nameKey j) ≠ "" ∧
      (parsePoolConfigs env)[j] =
        { Name := osGetenv env (nameKey j)
          Typ := osGetenv env (typeKey j)
          Disks := fields (osGetenv env (disksKey j))
          Ashift := getEnv env (ashiftKey j) (getEnv env "ZPOOL_ASHIFT" "12") }) ∧
    ((parsePoolConfigs env).length < 42 →
      osGetenv env (nameKey ((parsePoolConfigs env).length)) = "") := by
  refine ⟨parseAux_length_le env (globalAshift env) maxPools 0, ?_, ?_⟩
  · intro j h
    refine ⟨by simpa using parseAux_name_ne env (globalAshift env) maxPools 0 j h, ?_⟩
    have h2 : (parsePoolConfigs env)[j]? = some (specAt env (globalAshift env) (0 + j)) :=
      parseAux_get? env (globalAshift env) maxPools 0 j h
    rw [List.getElem?_eq_getElem h] at h2
    have h3 := Option.some.inj h2
    rw [h3]
    simp [specAt, globalAshift, defaultAshift]
  · intro h
    simpa using parseAux_stop env (globalAshift env) maxPools 0 h

/-- Witness for C5 on a concrete environment with one configured pool. -/
theorem parsePoolConfigs_characterization_witness :
    osGetenv envOne (nameKey 0) ≠ "" ∧
    (parsePoolConfigs envOne)[0]? =
      some { Name := "tank0", Typ := "mirror",
             Disks := ["/dev/sda", "/dev/sdb"], Ashift := "13" } ∧
    osGetenv envOne (nameKey (parsePoolConfigs envOne).length) = "" := by
  have h0 : 0 < (parsePoolConfigs envOne).length := by decide
  obtain ⟨-, h2, h3⟩ := parsePoolConfigs_characterization envOne
  refine ⟨(h2 0 h0).1, ?_, h3 (by decide)⟩
  rw [List.getElem?_eq_getElem h0, (h2 0 h0).2]
  decide

/-- The batch has an erroring entry exactly when some configuration's
`createPool` result is an error. -/
theorem runBatch_any (p : zfsProvider) (zp : String) (cs : List poolConfig) :
    (runBatch p zp cs).any (fun r => r.2.1.isSome) =
      cs.any (fun c => ((createPool p zp c).1).isSome) := by
  induction cs with
  | nil => rfl
  | cons c cs ih =>
    simp only [runBatch, List.map_cons, List.any_cons] at ih ⊢
    rw [ih]

/-- Claim C1: if the `zpool` binary cannot be resolved, the run exits
with code 1 before any pool is processed; if the parser yields zero
specifications, the run exits 0 immediately; otherwise `createPool` is
attempted for every parsed specification in order with no early abort,
and the run exits 1 exactly when at least one `createPool` call returned
an error. -/
theorem main_batch_contract (p : zfsProvider) (env : Env) :
    (∀ e, p.LookPath "zpool" = Except.error e → mainRun p env = (1, [])) ∧
    (∀ zp, p.LookPath "zpool" = Except.ok zp →
      (parsePoolConfigs env = [] → mainRun p env = (0, [])) ∧
      (runBatch p zp (parsePoolConfigs env)).map Prod.fst = parsePoolConfigs env ∧
      ((mainRun p env).1 = 1 ↔
        ∃ c ∈ parsePoolConfigs env, ((createPool p zp c).1).isSome = true)) := by
  constructor
  · intro e he
    simp [mainRun, he]
  · intro zp hzp
    refine ⟨?_, ?_, ?_⟩
    · intro hcfg
      simp [mainRun, hzp, hcfg]
    · simp [runBatch, List.map_map, Function.comp_def]
    · simp only [mainRun, hzp]
      by_cases hcfg : (parsePoolConfigs env).isEmpty
      · rw [if_pos hcfg]
        rw [List.isEmpty_iff] at hcfg
        simp [hcfg]
      · rw [if_neg hcfg, runBatch_any]
        by_cases hany :
            (parsePoolConfigs env).any (fun c => ((createPool p zp c).1).isSome) = true
        · rw [if_pos hany]
          simp only [List.any_eq_true] at hany
          simpa using hany
        · rw [if_neg hany]
          simp only [List.any_eq_true] at hany
          push_neg at hany
          constructor
          · intro h
            simp at h
          · rintro ⟨c, hc, hs⟩
            exact absurd hs (by simpa using hany c hc)

/-- Witness for C1 on concrete providers and environments. -/
theorem main_batch_contract_witness :
    mainRun provNoZpool envEmpty = (1, []) ∧
    mainRun provOk envEmpty = (0, []) ∧
    ((mainRun provProbe envOne).1 = 1 ↔
      ∃ c ∈ parsePoolConfigs envOne,
        ((createPool provProbe "/usr/local/sbin/zpool" c).1).isSome = true) :=
  ⟨(main_batch_contract provNoZpool envEmpty).1 "executable file not found in PATH" rfl,
   ((main_batch_contract provOk envEmpty).2 "/usr/local/sbin/zpool" rfl).1 (by decide),
   ((main_batch_contract provProbe envOne).2 "/usr/local/sbin/zpool" rfl).2.2⟩

/-- Claim C2: for a specification passing name, type and alignment
validation, an empty disk list makes `createPool` succeed with no
gateway call at all (in particular no existence check and no creation
command), and an existing pool makes it succeed with no creation
command. -/
theorem createPool_skip_cases (p : zfsProvider) (zp : String) (c : poolConfig)
    (hn : isValidZpoolName c.Name = true)
    (ht : isValidZpoolType c.Typ = true)
    (ha : isValidAshift c.Ashift = true) :
    (c.Disks = [] → createPool p zp c = (none, [])) ∧
    (p.PoolExists c.Name zp = true →
      (createPool p zp c).1 = none ∧
      ∀ zp2 args, gatewayCall.createPool zp2 args ∉ (createPool p zp c).2) := by
  constructor
  · intro hd
    simp [createPool, hn, ht, ha, hd]
  · intro hex
    by_cases hd : c.Disks.isEmpty
    · simp [createPool, hn, ht, ha, hd]
    · simp [createPool, hn, ht, ha, hd, hex]

/-- Witness for C2: both skip cases on concrete fixtures. -/
theorem createPool_skip_cases_witness :
    createPool provSkip "/z" cfgNoDisks = (none, []) ∧
    (createPool provSkip "/z" cfgOneDisk).1 = none ∧
    gatewayCall.createPool "/z" ["create"] ∉ (createPool provSkip "/z" cfgOneDisk).2 := by
  have h1 := createPool_skip_cases provSkip "/z" cfgNoDisks (by decide) (by decide) (by decide)
  have h2 := createPool_skip_cases provSkip "/z" cfgOneDisk (by decide) (by decide) (by decide)
  exact ⟨h1.1 rfl, (h2.2 rfl).1, (h2.2 rfl).2 "/z" ["create"]⟩

/-- Claim C3: when `createPool` reaches the creation step, the argument
list passed to `CreatePool` is exactly the create subcommand, `-m` with
`/var/mnt/` joined with the pool name, `-o` `ashift=<value>`, the pool
name, the vdev type token only if non-empty, then the usable disks in
order; and a non-zero `CreatePool` result makes `createPool` return an
error carrying the command's combined output. -/
theorem createPool_args_exact (p : zfsProvider) (zp : String) (c : poolConfig)
    (hn : isValidZpoolName c.Name = true)
    (ht : isValidZpoolType c.Typ = true)
    (ha : isValidAshift c.Ashift = true)
    (hd : c.Disks ≠ [])
    (he : p.PoolExists c.Name zp = false)
    (hu : c.Disks.filter (usableDisk p) ≠ []) :
    buildArgs c.Name c.Typ c.Ashift (c.Disks.filter (usableDisk p)) =
      ["create", "-m", "/var/mnt/" ++ c.Name, "-o", "ashift=" ++ c.Ashift, c.Name]
        ++ (if c.Typ ≠ "" then [c.Typ] else []) ++ c.Disks.filter (usableDisk p) ∧
    gatewayCall.createPool zp (buildArgs c.Name c.Typ c.Ashift (c.Disks.filter (usableDisk p)))
      ∈ (createPool p zp c).2 ∧
    (∀ out e,
      p.CreatePool zp (buildArgs c.Name c.Typ c.Ashift (c.Disks.filter (usableDisk p))) =
        (out, some e) →
      (createPool p zp c).1 =
        some ("zpool create command failed: " ++ e ++ ". Output: " ++ out)) := by
  refine ⟨rfl, ?_, ?_⟩
  · rcases hcp : p.CreatePool zp (buildArgs c.Name c.Typ c.Ashift (c.Disks.filter (usableDisk p)))
      with ⟨out, oerr⟩
    cases oerr with
    | none => simp [createPool, hn, ht, ha, he, hd, hu, hcp]
    | some e => simp [createPool, hn, ht, ha, he, hd, hu, hcp]
  · intro out e hcp
    simp [createPool, hn, ht, ha, he, hd, hu, hcp]

/-- Witness for C3 on a concrete provider whose creation command fails. -/
theorem createPool_args_exact_witness :
    gatewayCall.createPool "/z"
        ["create", "-m", "/var/mnt/tank", "-o", "ashift=12", "tank", "mirror", "/dev/sda"]
      ∈ (createPool provProbe "/z" cfgMixedDisks).2 ∧
    (createPool provProbe "/z" cfgMixedDisks).1 =
      some "zpool create command failed: exit status 1. Output: invalid vdev specification" := by
  have h := createPool_args_exact provProbe "/z" cfgMixedDisks
    (by decide) (by decide) (by decide) (by decide) rfl (by decide)
  exact ⟨h.2.1, h.2.2 "invalid vdev specification" "exit status 1" rfl⟩

/-- Claim C4: the usable-disk list is exactly the order-preserving
subsequence of the specification's disks on which `IsBlockDevice`
returns `(true, nil)`; erroring or non-block paths are dropped without
failing the pool; and an empty usable list is a per-pool error with no
creation command invoked. -/
theorem createPool_disk_probing (p : zfsProvider) (zp : String) (c : poolConfig)
    (hn : isValidZpoolName c.Name = true)
    (ht : isValidZpoolType c.Typ = true)
    (ha : isValidAshift c.Ashift = true)
    (hd : c.Disks ≠ [])
    (he : p.PoolExists c.Name zp = false) :
    (∀ d, usableDisk p d = true ↔ p.IsBlockDevice d = Except.ok true) ∧
    (c.Disks.filter (usableDisk p)).Sublist c.Disks ∧
    (c.Disks.filter (usableDisk p) = [] →
      createPool p zp c =
        (some "no usable block devices found from the provided list",
         gatewayCall.poolExists c.Name zp :: c.Disks.map gatewayCall.isBlockDevice) ∧
      ∀ zp2 args, gatewayCall.createPool zp2 args ∉ (createPool p zp c).2) := by
  refine ⟨?_, List.filter_sublist _, ?_⟩
  · intro d
    unfold usableDisk
    cases hb : p.IsBlockDevice d with
    | error e => simp [hb]
    | ok b => cases b <;> simp [hb]
  · intro hfu
    have hres : createPool p zp c =
        (some "no usable block devices found from the provided list",
         gatewayCall.poolExists c.Name zp :: c.Disks.map gatewayCall.isBlockDevice) := by
      simp [createPool, hn, ht, ha, he, hd, hfu]
    refine ⟨hres, ?_⟩
    intro zp2 args
    rw [hres]
    simp

/-- Witness for C4 on a configuration whose disks are all unusable. -/
theorem createPool_disk_probing_witness :
    (usableDisk provProbe "/dev/sda" = true ↔
      provProbe.IsBlockDevice "/dev/sda" = Except.ok true) ∧
    createPool provProbe "/z" cfgBadDisks =
      (some "no usable block devices found from the provided list",
       [gatewayCall.poolExists "tank" "/z", gatewayCall.isBlockDevice "/dev/bad1",
        gatewayCall.isBlockDevice "/dev/bad2"]) ∧
    gatewayCall.createPool "/z" ["create"] ∉ (createPool provProbe "/z" cfgBadDisks).2 := by
  have h := createPool_disk_probing provProbe "/z" cfgBadDisks
    (by decide) (by decide) (by decide) (by decide) rfl
  exact ⟨h.1 "/dev/sda", (h.2.2 (by decide)).1, (h.2.2 (by decide)).2 "/z" ["create"]⟩

/-- Membership in the reserved-names map, spelled out. -/
theorem reservedNames_contains_iff (t : String) :
    reservedNames.contains t = true ↔
      (t = "mirror" ∨ t = "raidz" ∨ t = "draid" ∨ t = "spare" ∨ t = "log") := by
  simp [reservedNames]

/-- The reserved-leading-word check, spelled out. -/
theorem reservedStarts_any_iff (t : String) :
    reservedStarts.any (fun r => startsWithGo t r) = true ↔
      (startsWithGo t "mirror" = true ∨ startsWithGo t "raidz" = true ∨
       startsWithGo t "draid" = true ∨ startsWithGo t "spare" = true) := by
  simp [reservedStarts]

/-- The anchored name pattern, spelled out: an ASCII letter followed by
characters of the name class. -/
theorem matchesNamePattern_iff (s : String) :
    matchesNamePattern s = true ↔
      ∃ c cs, s.data = c :: cs ∧ isAsciiLetter c = true ∧ cs.all isNameChar = true := by
  unfold matchesNamePattern
  cases h : s.data with
  | nil => simp
  | cons c cs =>
    simp only [Bool.and_eq_true]
    constructor
    · rintro ⟨hc, hcs⟩
      exact ⟨c, cs, rfl, hc, hcs⟩
    · rintro ⟨c2, cs2, hcc, hc2, hcs2⟩
      injection hcc with e1 e2
      subst e1; subst e2
      exact ⟨hc2, hcs2⟩

/-- Claim C6: name validation returns true exactly for non-empty strings
matching the pattern "ASCII letter then letters, digits, underscore,
hyphen, period, colon or space", that are not exactly a reserved word
and do not begin with a reserved leading word; in particular
`"raidz-my-pool"` is rejected. -/
theorem isValidZpoolName_characterization (s : String) :
    (isValidZpoolName s = true ↔
      (s ≠ "" ∧
       (∃ c cs, s.data = c :: cs ∧ isAsciiLetter c = true ∧ cs.all isNameChar = true) ∧
       s ≠ "mirror" ∧ s ≠ "raidz" ∧ s ≠ "draid" ∧ s ≠ "spare" ∧ s ≠ "log" ∧
       startsWithGo s "mirror" = false ∧ startsWithGo s "raidz" = false ∧
       startsWithGo s "draid" = false ∧ startsWithGo s "spare" = false)) ∧
    isValidZpoolName "raidz-my-pool" = false := by
  refine ⟨?_, by decide⟩
  unfold isValidZpoolName
  split_ifs with h1 h2 h3 h4
  · simp [h1]
  · refine iff_of_false (by simp) ?_
    rintro ⟨-, hpat, -⟩
    rw [Bool.not_eq_true'] at h2
    rw [← matchesNamePattern_iff] at hpat
    rw [h2] at hpat
    exact Bool.false_ne_true hpat
  · refine iff_of_false (by simp) ?_
    rintro ⟨-, -, hm, hr, hd, hsp, hl, -⟩
    rcases (reservedNames_contains_iff s).1 h3 with rfl | rfl | rfl | rfl | rfl
    exacts [hm rfl, hr rfl, hd rfl, hsp rfl, hl rfl]
  · refine iff_of_false (by simp) ?_
    rintro ⟨-, -, -, -, -, -, -, hm, hr, hd, hsp⟩
    rcases (reservedStarts_any_iff s).1 h4 with h | h | h | h
    · rw [hm] at h; exact Bool.false_ne_true h
    · rw [hr] at h; exact Bool.false_ne_true h
    · rw [hd] at h; exact Bool.false_ne_true h
    · rw [hsp] at h; exact Bool.false_ne_true h
  · have hm : matchesNamePattern s = true := by
      cases hmb : matchesNamePattern s with
      | true => rfl
      | false => exact absurd (by simp [hmb]) h2
    have hr5 : ¬(s = "mirror" ∨ s = "raidz" ∨ s = "draid" ∨ s = "spare" ∨ s = "log") :=
      fun hor => h3 ((reservedNames_contains_iff s).2 hor)
    push_neg at hr5
    have hs4 : ¬(startsWithGo s "mirror" = true ∨ startsWithGo s "raidz" = true ∨
        startsWithGo s "draid" = true ∨ startsWithGo s "spare" = true) :=
      fun hor => h4 ((reservedStarts_any_iff s).2 hor)
    push_neg at hs4
    simp only [Bool.not_eq_true] at hs4
    exact iff_of_true rfl
      ⟨h1, (matchesNamePattern_iff s).1 hm, hr5.1, hr5.2.1, hr5.2.2.1, hr5.2.2.2.1,
       hr5.2.2.2.2, hs4.1, hs4.2.1, hs4.2.2.1, hs4.2.2.2⟩

/-- `digitsVal` accumulates the decimal value of an all-digit list and
fails on any non-digit. -/
theorem digitsVal_eq (l : List Char) :
    ∀ acc, digitsVal l acc =
      if l.all Char.isDigit then
        some (l.foldl (fun a c => a * 10 + (c.toNat - 48)) acc)
      else none := by
  induction l with
  | nil => intro acc; simp [digitsVal]
  | cons c cs ih =>
    intro acc
    by_cases hc : c.isDigit
    · simp [digitsVal, ih, hc]
    · simp [digitsVal, hc]

/-- `parseDigits` succeeds exactly on non-empty all-digit lists. -/
theorem parseDigits_eq (l : List Char) :
    parseDigits l =
      if l ≠ [] ∧ l.all Char.isDigit = true then some (digitsToNat l) else none := by
  cases l with
  | nil => rfl
  | cons c cs =>
    rw [show parseDigits (c :: cs) = digitsVal (c :: cs) 0 from rfl]
    rw [digitsVal_eq]
    simp [digitsToNat]

/-- Claim C7 (amended): alignment validation accepts exactly the strings
made of an optional sign and at least one decimal digit whose value lies
in the signed 64-bit integer range; it rejects everything else,
including the empty string, non-numeric strings and decimal strings. -/
theorem isValidAshift_characterization (s : String) :
    isValidAshift s = true ↔
      (specBase10Int s = true ∧
       -(2 ^ 63) ≤ specIntValue s ∧ specIntValue s ≤ 2 ^ 63 - 1) := by
  unfold isValidAshift atoiGo specBase10Int specIntValue
  cases h : s.data with
  | nil => simp
  | cons c cs =>
    dsimp only
    by_cases hminus : c = '-'
    · subst hminus
      rw [if_pos rfl, parseDigits_eq]
      by_cases hcs : cs ≠ [] ∧ cs.all Char.isDigit = true
      · rw [if_pos hcs]
        dsimp only
        have hne : cs.isEmpty = false := by
          cases cs
          · exact absurd rfl hcs.1
          · rfl
        by_cases hle : ((digitsToNat cs : Int)) ≤ 2 ^ 63
        · rw [if_pos hle]
          simp [hne, hcs.2]
          constructor <;> omega
        · rw [if_neg hle]
          simp [hne, hcs.2]
          intro hb1
          omega
      · rw [if_neg hcs]
        simp only [Option.isSome_none, Bool.false_eq_true, false_iff]
        rintro ⟨hpat, -⟩
        apply hcs
        simp at hpat
        constructor
        · simpa [List.isEmpty_iff] using hpat.1
        · exact List.all_eq_true.2 hpat.2
    · rw [if_neg hminus]
      by_cases hplus : c = '+'
      · subst hplus
        rw [if_pos rfl, parseDigits_eq]
        by_cases hcs : cs ≠ [] ∧ cs.all Char.isDigit = true
        · rw [if_pos hcs]
          dsimp only
          have hne : cs.isEmpty = false := by
            cases cs
            · exact absurd rfl hcs.1
            · rfl
          by_cases hle : ((digitsToNat cs : Int)) ≤ 2 ^ 63 - 1
          · rw [if_pos hle]
            simp [hne, hcs.2]
            omega
          · rw [if_neg hle]
            simp [hne, hcs.2]
            omega
        · rw [if_neg hcs]
          simp only [Option.isSome_none, Bool.false_eq_true, false_iff]
          rintro ⟨hpat, -⟩
          apply hcs
          simp at hpat
          constructor
          · simpa [List.isEmpty_iff] using hpat.1
          · exact List.all_eq_true.2 hpat.2
      · rw [if_neg hplus, parseDigits_eq]
        by_cases hall : (c :: cs).all Char.isDigit = true
        · rw [if_pos ⟨List.cons_ne_nil c cs, hall⟩]
          dsimp only
          by_cases hle : ((digitsToNat (c :: cs) : Int)) ≤ 2 ^ 63 - 1
          · rw [if_pos hle]
            simp [hminus, hplus, hall]
            omega
          · rw [if_neg hle]
            simp [hminus, hplus, hall]
            omega
        · rw [if_neg (fun hand => hall hand.2)]
          simp [hminus, hplus, hall]

/-- Counterexample for C7 as stated: a 20-digit number is parseable as a
base-10 integer in the spec's sense, yet alignment validation rejects it
(`strconv.Atoi` range-errors beyond the signed 64-bit range). -/
theorem isValidAshift_claim_counterexample :
    specBase10Int "99999999999999999999" = true ∧
    isValidAshift "99999999999999999999" = false := by
  constructor
  · decide
  · decide

/-- A provider's `usableDisk` predicate depends only on its
`IsBlockDevice` behaviour. -/
theorem usableDisk_congr (p q : zfsProvider)
    (hbd : p.IsBlockDevice = q.IsBlockDevice) :
    usableDisk p = usableDisk q := by
  funext d
  unfold usableDisk
  rw [hbd]

/-- Claim C8: after the creation command succeeds, `createPool` invokes
the status query, and the result of `GetPoolStatus` never changes the
per-pool outcome: two providers differing only in `GetPoolStatus`
produce identical `createPool` results, and the outcome is success. -/
theorem createPool_status_never_escalates (p q : zfsProvider) (zp : String) (c : poolConfig)
    (hpe : p.PoolExists = q.PoolExists)
    (hbd : p.IsBlockDevice = q.IsBlockDevice)
    (hcp : p.CreatePool = q.CreatePool) :
    createPool p zp c = createPool q zp c ∧
    (∀ out,
      p.CreatePool zp (buildArgs c.Name c.Typ c.Ashift (c.Disks.filter (usableDisk p))) =
        (out, none) →
      isValidZpoolName c.Name = true → isValidZpoolType c.Typ = true →
      isValidAshift c.Ashift = true → c.Disks ≠ [] →
      p.PoolExists c.Name zp = false → c.Disks.filter (usableDisk p) ≠ [] →
      (createPool p zp c).1 = none ∧
      gatewayCall.getPoolStatus c.Name zp ∈ (createPool p zp c).2) := by
  constructor
  · unfold createPool
    rw [hpe, hcp, usableDisk_congr p q hbd]
  · intro out hokcp hn ht ha hd he hu
    simp [createPool, hn, ht, ha, he, hd, hu, hokcp]

/-- Witness for C8: a provider whose status query fails still yields the
same, successful `createPool` outcome. -/
theorem createPool_status_never_escalates_witness :
    createPool provStatusFail "/z" cfgOneDisk = createPool provOk "/z" cfgOneDisk ∧
    (createPool provStatusFail "/z" cfgOneDisk).1 = none ∧
    gatewayCall.getPoolStatus "tank" "/z" ∈ (createPool provStatusFail "/z" cfgOneDisk).2 := by
  have h := createPool_status_never_escalates provStatusFail provOk "/z" cfgOneDisk rfl rfl rfl
  have h2 := h.2 "" rfl (by decide) (by decide) (by decide) (by decide) rfl (by decide)
  exact ⟨h.1, h2.1, h2.2⟩

/-- A specification with an invalid alignment value always fails in
`createPool` (validation precedes every skip case). -/
theorem createPool_invalid_ashift (p : zfsProvider) (zp : String) (c : poolConfig)
    (h : isValidAshift c.Ashift = false) :
    ((createPool p zp c).1).isSome = true := by
  unfold createPool
  split_ifs with h1 h2 h3 h4 h5
  · simp
  · simp
  · simp
  all_goals exact absurd (by simp [h]) h3

/-- Claim C9: the global-alignment fallback applies only when
`ZPOOL_ASHIFT_<i>` is unset, not when it is set to the empty string: a
per-pool variable set to `""` makes the parsed alignment empty, a global
`ZPOOL_ASHIFT` set to `""` replaces the default `"12"` for pools without
their own override, and an empty alignment later fails alignment
validation inside `createPool`. -/
theorem ashift_env_fallback (env : Env) (i : Nat) (p : zfsProvider) (zp : String)
    (hi : i < (parsePoolConfigs env).length) :
    (env (ashiftKey i) = some "" → ((parsePoolConfigs env)[i]).Ashift = "") ∧
    (env "ZPOOL_ASHIFT" = some "" → env (ashiftKey i) = none →
      ((parsePoolConfigs env)[i]).Ashift = "") ∧
    (((parsePoolConfigs env)[i]).Ashift = "" →
      isValidAshift ((parsePoolConfigs env)[i]).Ashift = false ∧
      ((createPool p zp ((parsePoolConfigs env)[i])).1).isSome = true) := by
  have h2 : (parsePoolConfigs env)[i]? = some (specAt env (globalAshift env) (0 + i)) :=
    parseAux_get? env (globalAshift env) maxPools 0 i hi
  rw [List.getElem?_eq_getElem hi] at h2
  have h3 := Option.some.inj h2
  rw [h3]
  refine ⟨?_, ?_, ?_⟩
  · intro hset
    simp [specAt, getEnv, Nat.zero_add, hset]
  · intro hg hnone
    simp [specAt, getEnv, globalAshift, defaultAshift, Nat.zero_add, hg, hnone]
  · intro hempty
    have hinv : isValidAshift (specAt env (globalAshift env) (0 + i)).Ashift = false := by
      rw [hempty]
      decide
    exact ⟨hinv, createPool_invalid_ashift p zp _ hinv⟩

/-- Witness for C9 on an environment whose per-pool alignment variable is
set to the empty string. -/
theorem ashift_env_fallback_witness :
    envAshiftEmpty (ashiftKey 0) = some "" ∧
    ((parsePoolConfigs envAshiftEmpty).get ⟨0, by decide⟩).Ashift = "" ∧
    ((createPool provOk "/z" ((parsePoolConfigs envAshiftEmpty).get ⟨0, by decide⟩)).1).isSome
      = true := by
  have hi : 0 < (parsePoolConfigs envAshiftEmpty).length := by decide
  have h := ashift_env_fallback envAshiftEmpty 0 provOk "/z" hi
  have ha : ((parsePoolConfigs envAshiftEmpty)[0]).Ashift = "" := h.1 rfl
  exact ⟨rfl, ha, (h.2.2 ha).2⟩

/-- Claim C10: the maximum-pool-count warning depends solely on whether
`ZPOOL_NAME_42` is non-empty: it is emitted whenever that variable is
non-empty even when parsing stopped at an earlier gap and returned fewer
than 42 specifications, and it is not emitted when all indices 0..41 are
configured but `ZPOOL_NAME_42` is unset. -/
theorem maxPoolWarning_characterization (env : Env) :
    (maxPoolWarning env = true ↔ osGetenv env (nameKey 42) ≠ "") ∧
    (parsePoolConfigs envGap42 = [] ∧ maxPoolWarning envGap42 = true) ∧
    ((parsePoolConfigs envFull42).length = 42 ∧ maxPoolWarning envFull42 = false) := by
  refine ⟨?_, ⟨by decide, by decide⟩, ⟨by decide, by decide⟩⟩
  simp [maxPoolWarning, maxPools, bne_iff_ne]
